import Mathlib

/-!
Verification development for the Naver Shopping crawler
(src/naver_shopping_crawler.py).

The crawler drives a rendered-page provider (Playwright) over a bounded
range of result pages, locates candidate item blocks by CSS class
selectors, extracts four fields per block (name, price, rating, reviews)
with per-field failure isolation, filters by rating/review thresholds,
and (in the entry point) sorts the accumulated records by price with
missing prices last.

Shallow embedding choices:
* An element lookup that raises in Python (absent sub-element) is
  modelled by an `Option String` field holding the inner text, `none`
  meaning the lookup raises.
* A rendered document is a list of elements, each carrying its tag, its
  CSS classes, and the inner texts of the four looked-up sub-elements.
* Page acquisition (`page.goto`) can raise; the rendering collaborator
  is a function `Nat → Except Unit (List Element)` and the crawl is in
  `Except Unit`, `Except.error` modelling a propagating exception.
* Python `float` values are modelled by `ℚ`; the rating strings parsed
  here are plain decimal literals, represented exactly.
* Python string builtins (`strip`, `replace`, `isdigit`, `int`,
  `float`) are modelled by executable functions over `List Char` below.
-/

/-- One candidate item block of the rendered document: its tag, its CSS
classes, and the trimmed-source inner texts of the four sub-element
lookups (`none` models a lookup that raises because the sub-element is
absent). -/
structure Element where
  tag : String
  classes : List String
  nameText : Option String
  priceText : Option String
  ratingText : Option String
  reviewText : Option String
deriving DecidableEq

/-- One product record, as built by `crawl_naver_shopping` (the dict
with keys name/price/rating/reviews). -/
structure Record where
  name : String
  price : Option Nat
  rating : Option ℚ
  reviews : Nat
deriving DecidableEq

/-! ### Models of the Python string builtins -/

/-- Whitespace recognised by Python `str.strip` (restricted to the ASCII
whitespace characters, which are the only ones these pages produce). -/
def pySpace (c : Char) : Bool :=
  c == ' ' || c == '\t' || c == '\n' || c == '\r' || c == '\x0b' || c == '\x0c'

/-- Model of Python `str.strip()` on the underlying character list. -/
def pyStripList (l : List Char) : List Char :=
  ((l.dropWhile pySpace).reverse.dropWhile pySpace).reverse

/-- Model of Python `str.strip()`. -/
def pyStrip (s : String) : String :=
  ⟨pyStripList s.data⟩

/-- Fuel-indexed worker for `pyReplace`: replaces non-overlapping
occurrences of `pat` left to right, continuing after each replacement,
exactly as Python `str.replace` does. -/
def replFuel (pat rep : List Char) : Nat → List Char → List Char
  | _, [] => []
  | 0, l => l
  | n + 1, c :: cs =>
    if pat.isPrefixOf (c :: cs) then
      rep ++ replFuel pat rep n (List.drop pat.length (c :: cs))
    else
      c :: replFuel pat rep n cs

/-- Model of Python `str.replace(pat, rep)` for a non-empty pattern (the
crawler only ever replaces the non-empty literals `","`, `"원"`,
`"별점"` and `"리뷰"`). -/
def pyReplace (s pat rep : String) : String :=
  if pat.data.isEmpty then s else ⟨replFuel pat.data rep.data s.data.length s.data⟩

/-- Model of Python `str.isdigit()` (restricted to the ASCII decimal
digits, which are the digits these pages produce). -/
def pyIsDigitStr (s : String) : Bool :=
  !s.data.isEmpty && s.data.all Char.isDigit

/-- Base-10 value of a digit character list, as Python `int` computes it
on a digit-only string. -/
def digitsVal (l : List Char) : Nat :=
  l.foldl (fun n c => n * 10 + (c.toNat - 48)) 0

/-- Model of Python `int` on a string already guarded by `isdigit`. -/
def pyInt (s : String) : Nat :=
  digitsVal s.data

/-- Unsigned part of the model of Python `float`: an optional integer
part, an optional dot, an optional fractional part, at least one digit
overall (so `"4."`, `".5"`, `"4.95"`, `"4"` parse and `"."`, `""`,
`"없음"` fail). The decimal value `ip.frac` is the exact rational
`digitsVal (ip ++ frac) / 10 ^ frac.length`. -/
def pyFloatCore (l : List Char) : Option ℚ :=
  let ip := l.takeWhile Char.isDigit
  let rest := l.dropWhile Char.isDigit
  match rest with
  | [] => if ip.isEmpty then none else some (mkRat (digitsVal ip) 1)
  | '.' :: frac =>
    if frac.all Char.isDigit && !(ip.isEmpty && frac.isEmpty) then
      some (mkRat (digitsVal (ip ++ frac)) (10 ^ frac.length))
    else none
  | _ => none

/-- Model of Python `float` restricted to plain signed decimal notation
(no exponents, underscores, infinities: the only forms a rating text can
take); any other input fails, modelling the `ValueError`. -/
def pyFloat (s : String) : Option ℚ :=
  match s.data with
  | '+' :: rest => pyFloatCore rest
  | '-' :: rest => (pyFloatCore rest).map Neg.neg
  | l => pyFloatCore l

/-! ### The four field extractions (lines 54–95 of the source) -/

/-- Price extraction: `inner_text().replace(",", "").replace("원", "")
.strip()`, then `int` if `isdigit`, else the price stays `None`; a
raising lookup (`none`) also leaves it `None`. -/
def parsePrice : Option String → Option Nat
  | none => none
  | some txt =>
    let s := pyStrip (pyReplace (pyReplace txt "," "") "원" "")
    if pyIsDigitStr s then some (pyInt s) else none

/-- Rating extraction: `inner_text().strip()`, then
`float(text.replace("별점", "").strip())`; any failure (raising lookup
or `ValueError`) leaves the rating `None`. -/
def parseRating : Option String → Option ℚ
  | none => none
  | some txt => pyFloat (pyStrip (pyReplace (pyStrip txt) "별점" ""))

/-- Review-count extraction: `inner_text().strip()`, then
`.replace("리뷰", "").replace(",", "").strip()`, then `int` if
`isdigit`; any failure leaves the initial value `0`. -/
def parseReviews : Option String → Nat
  | none => 0
  | some txt =>
    let s := pyStrip (pyReplace (pyReplace (pyStrip txt) "리뷰" "") "," "")
    if pyIsDigitStr s then pyInt s else 0

/-- Per-block record construction: the name lookup is tried first and a
raising lookup skips the block (`continue`); otherwise the three other
fields are extracted independently and the record is built. -/
def extractItem (e : Element) : Option Record :=
  match e.nameText with
  | none => none
  | some t =>
    some
      { name := pyStrip t
        price := parsePrice e.priceText
        rating := parseRating e.ratingText
        reviews := parseReviews e.reviewText }

/-- The inclusion test of line 97: the record is skipped iff
`rating is None or rating < min_rating or reviews < min_reviews`. -/
def passesFilter (min_rating : ℚ) (min_reviews : Nat) (r : Record) : Bool :=
  match r.rating with
  | none => false
  | some q => !(decide (q < min_rating)) && !(decide (r.reviews < min_reviews))

/-! ### Selector lookup (lines 48–52) -/

/-- The primary selector `"div.product_item__MDtDF, div.product_item__KZ02m"`
(a CSS selector list matches the union of its comma-separated parts). -/
def matchesPrimary (e : Element) : Bool :=
  (e.tag == "div" && e.classes.contains "product_item__MDtDF") ||
    (e.tag == "div" && e.classes.contains "product_item__KZ02m")

/-- The fallback selector `"div.product_item__MDtDF"`. -/
def matchesFallback (e : Element) : Bool :=
  e.tag == "div" && e.classes.contains "product_item__MDtDF"

/-- The two-tier item lookup: the primary selector set, then, when it
matches nothing, the fallback selector. -/
def findItems (doc : List Element) : List Element :=
  let items := doc.filter matchesPrimary
  if items.isEmpty then doc.filter matchesFallback else items

/-! ### The page loop (lines 43–107) -/

/-- Records contributed by one rendered page: every located item whose
name lookup succeeds and whose record clears the filter. -/
def processPage (min_rating : ℚ) (min_reviews : Nat) (doc : List Element) : List Record :=
  (findItems doc).filterMap fun e =>
    (extractItem e).filter (passesFilter min_rating min_reviews)

/-- The page loop over an explicit list of page indices: each page is
acquired from the rendering collaborator (`Except.error` models a
propagating `page.goto` exception, which aborts the whole call and
discards the accumulated records), and the surviving records of all
pages are accumulated in page order. -/
def crawlPages (fetch : Nat → Except Unit (List Element)) (min_rating : ℚ)
    (min_reviews : Nat) : List Nat → Except Unit (List Record)
  | [] => Except.ok []
  | p :: ps =>
    match fetch p with
    | Except.error e => Except.error e
    | Except.ok doc =>
      match crawlPages fetch min_rating min_reviews ps with
      | Except.error e => Except.error e
      | Except.ok rest => Except.ok (processPage min_rating min_reviews doc ++ rest)

/-- `crawl_naver_shopping`, over the abstract rendering collaborator:
pages `1` to `max_pages` inclusive. -/
def crawl_naver_shopping (fetch : Nat → Except Unit (List Element)) (min_rating : ℚ)
    (min_reviews : Nat) (max_pages : Nat) : Except Unit (List Record) :=
  crawlPages fetch min_rating min_reviews (List.range' 1 max_pages)

/-! ### The presentation sort of the entry point (lines 123–129) -/

/-- First component of the Python sort key: `item["price"] is None`
(with `False < True`, i.e. `0 < 1`). -/
def sortKeyFst (r : Record) : Nat :=
  if r.price = none then 1 else 0

/-- Second component of the Python sort key: the price, or the sentinel
`999_999_999` when absent. -/
def sortKeySnd (r : Record) : Nat :=
  match r.price with
  | none => 999999999
  | some p => p

/-- Lexicographic comparison of the Python sort keys. -/
def keyLE (a b : Record) : Bool :=
  decide (sortKeyFst a < sortKeyFst b ∨
    (sortKeyFst a = sortKeyFst b ∧ sortKeySnd a ≤ sortKeySnd b))

/-- The entry point's `sorted(data, key=...)`: Python `sorted` is a
stable merge sort under the key order. -/
def sortData (l : List Record) : List Record :=
  l.mergeSort keyLE

/-! ### Concrete sample pages used by witnesses and counterexamples -/

/-- A qualifying item card: priced `12,900원`, rated `별점4.95`, with
`리뷰 1,234` reviews. -/
def elemA : Element :=
  { tag := "div", classes := ["product_item__MDtDF"]
    nameText := some "상품A", priceText := some "12,900원"
    ratingText := some "별점4.95", reviewText := some "리뷰 1,234" }

/-- A qualifying item card of the alternate layout variant whose price
text `가격문의` is not numeric, so its price is absent. -/
def elemB : Element :=
  { tag := "div", classes := ["product_item__KZ02m"]
    nameText := some "상품B", priceText := some "가격문의"
    ratingText := some "별점5", reviewText := some "리뷰 250" }

/-- A qualifying item card exactly on both thresholds. -/
def elemC : Element :=
  { tag := "div", classes := ["product_item__MDtDF"]
    nameText := some "상품C", priceText := some "5,000원"
    ratingText := some "별점4.9", reviewText := some "리뷰 100" }

/-- An item card whose title text exists but is all whitespace, so the
trimmed name is empty. -/
def elemEmptyName : Element :=
  { tag := "div", classes := ["product_item__MDtDF"]
    nameText := some "   ", priceText := some "12,900원"
    ratingText := some "별점4.95", reviewText := some "리뷰 1,234" }

/-- An element matched by neither selector tier. -/
def elemOther : Element :=
  { tag := "span", classes := ["price_num__S2p_v"]
    nameText := some "x", priceText := none, ratingText := none, reviewText := none }

/-- The record extracted from `elemA`. -/
def recA : Record :=
  { name := "상품A", price := some 12900, rating := some (mkRat 495 100), reviews := 1234 }

/-- The record extracted from `elemB` (absent price). -/
def recB : Record :=
  { name := "상품B", price := none, rating := some (mkRat 5 1), reviews := 250 }

/-- The record extracted from `elemC`. -/
def recC : Record :=
  { name := "상품C", price := some 5000, rating := some (mkRat 49 10), reviews := 100 }

/-- The record extracted from `elemEmptyName`: its name is empty. -/
def recEmptyName : Record :=
  { name := "", price := some 12900, rating := some (mkRat 495 100), reviews := 1234 }

/-! ### Helper lemmas -/

/-- The lexicographic key comparison is total. -/
theorem keyLE_total (a b : Record) : keyLE a b || keyLE b a := by
  simp only [keyLE, Bool.or_eq_true, decide_eq_true_eq]
  omega

/-- The lexicographic key comparison is transitive. -/
theorem keyLE_trans (a b c : Record) : keyLE a b → keyLE b c → keyLE a c := by
  simp only [keyLE, decide_eq_true_eq]
  omega

/-- The inclusion test succeeds exactly when the rating is present, at
least `min_rating`, and the review count is at least `min_reviews`. -/
theorem passesFilter_iff {mr : ℚ} {mv : Nat} {r : Record} :
    passesFilter mr mv r = true ↔ ∃ q, r.rating = some q ∧ mr ≤ q ∧ mv ≤ r.reviews := by
  unfold passesFilter
  cases hr : r.rating with
  | none => simp
  | some q =>
    simp only [Bool.and_eq_true, Bool.not_eq_true', decide_eq_false_iff_not, not_lt,
      Option.some.injEq]
    constructor
    · rintro ⟨h1, h2⟩
      exact ⟨q, rfl, h1, h2⟩
    · rintro ⟨q2, hq, h1, h2⟩
      cases hq
      exact ⟨h1, h2⟩

/-- Membership in one page's contribution: the record is an extracted
candidate of a located block and it clears the filter. -/
theorem mem_processPage {mr : ℚ} {mv : Nat} {doc : List Element} {r : Record} :
    r ∈ processPage mr mv doc ↔
      r ∈ (findItems doc).filterMap extractItem ∧ passesFilter mr mv r = true := by
  constructor
  · intro h
    simp only [processPage, List.mem_filterMap, Option.filter_eq_some, Option.mem_def] at h
    obtain ⟨e, he, hx, hp⟩ := h
    exact ⟨List.mem_filterMap.mpr ⟨e, he, hx⟩, hp⟩
  · rintro ⟨hmem, hp⟩
    obtain ⟨e, he, hx⟩ := List.mem_filterMap.mp hmem
    simp only [processPage, List.mem_filterMap, Option.filter_eq_some, Option.mem_def]
    exact ⟨e, he, hx, hp⟩

/-- Membership in a successful crawl over an explicit page list. -/
theorem crawlPages_ok_mem (fetch : Nat → Except Unit (List Element)) (mr : ℚ) (mv : Nat) :
    ∀ (ps : List Nat) (res : List Record),
      crawlPages fetch mr mv ps = Except.ok res →
      ∀ r : Record,
        (r ∈ res ↔ ∃ p ∈ ps, ∃ doc, fetch p = Except.ok doc ∧ r ∈ processPage mr mv doc) := by
  intro ps
  induction ps with
  | nil =>
    intro res h r
    simp only [crawlPages, Except.ok.injEq] at h
    subst h
    simp
  | cons p ps ih =>
    intro res h r
    cases hf : fetch p with
    | error e => simp [crawlPages, hf] at h
    | ok doc =>
      cases hr : crawlPages fetch mr mv ps with
      | error e => simp [crawlPages, hf, hr] at h
      | ok rest =>
        simp only [crawlPages, hf, hr, Except.ok.injEq] at h
        subst h
        constructor
        · intro hmem
          rcases List.mem_append.mp hmem with hL | hR
          · exact ⟨p, List.mem_cons_self p ps, doc, hf, hL⟩
          · obtain ⟨p2, hp2, doc2, hfd, hm⟩ := (ih rest hr r).mp hR
            exact ⟨p2, List.mem_cons_of_mem p hp2, doc2, hfd, hm⟩
        · rintro ⟨p2, hp2, doc2, hfd, hm⟩
          rcases List.mem_cons.mp hp2 with hpe | hps
          · subst hpe
            have hd : doc = doc2 := Except.ok.inj (hf.symm.trans hfd)
            subst hd
            exact List.mem_append.mpr (Or.inl hm)
          · exact List.mem_append.mpr
              (Or.inr ((ih rest hr r).mpr ⟨p2, hps, doc2, hfd, hm⟩))

/-- A successful crawl implies every listed page was acquired without a
page-load fault. -/
theorem crawlPages_ok_fetch (fetch : Nat → Except Unit (List Element)) (mr : ℚ) (mv : Nat) :
    ∀ (ps : List Nat) (res : List Record),
      crawlPages fetch mr mv ps = Except.ok res →
      ∀ p ∈ ps, ∃ doc, fetch p = Except.ok doc := by
  intro ps
  induction ps with
  | nil =>
    intro res _ p hp
    cases hp
  | cons p0 ps ih =>
    intro res h p hp
    cases hf : fetch p0 with
    | error e => simp [crawlPages, hf] at h
    | ok doc =>
      cases hr : crawlPages fetch mr mv ps with
      | error e => simp [crawlPages, hf, hr] at h
      | ok rest =>
        rcases List.mem_cons.mp hp with hpe | hps
        · exact ⟨doc, hpe ▸ hf⟩
        · exact ih rest hr p hps

/-- A crawl over pages that all load successfully returns the
page-ordered concatenation of the per-page contributions. -/
theorem crawlPages_allOk (docFn : Nat → List Element) (mr : ℚ) (mv : Nat) :
    ∀ ps : List Nat,
      crawlPages (fun p => Except.ok (docFn p)) mr mv ps =
        Except.ok (ps.flatMap fun p => processPage mr mv (docFn p)) := by
  intro ps
  induction ps with
  | nil => rfl
  | cons p ps ih => simp [crawlPages, ih]

/-! ### Claim theorems -/

/-- C1. A record appears in the sequence returned by
`crawl_naver_shopping` if and only if it is an extracted candidate of a
located block on one of the crawled pages whose rating is present, at
least `min_rating`, and whose review count is at least `min_reviews`;
and the filter is independent of the price field, so a record with an
absent price can be included. -/
theorem crawl_inclusion_iff (fetch : Nat → Except Unit (List Element)) (mr : ℚ)
    (mv n : Nat) (res : List Record)
    (h : crawl_naver_shopping fetch mr mv n = Except.ok res) :
    (∀ r : Record, r ∈ res ↔
       ∃ p ∈ List.range' 1 n, ∃ doc, fetch p = Except.ok doc ∧
         r ∈ (findItems doc).filterMap extractItem ∧
         ∃ q, r.rating = some q ∧ mr ≤ q ∧ mv ≤ r.reviews) ∧
    (∀ (r : Record) (pr : Option Nat),
       passesFilter mr mv { r with price := pr } = passesFilter mr mv r) := by
  constructor
  · intro r
    rw [crawlPages_ok_mem fetch mr mv (List.range' 1 n) res h r]
    simp only [mem_processPage, passesFilter_iff, and_assoc]
  · intro r pr
    rfl

/-- C1 witness: a concrete one-page crawl includes the price-absent
record `recB`, because its rating `5` and review count `250` clear the
thresholds `4.9` and `100`. -/
theorem crawl_inclusion_iff_witness : recB ∈ [recB] :=
  ((crawl_inclusion_iff (fun _ => Except.ok [elemB]) (mkRat 49 10) 100 1 [recB]
      rfl).1 recB).mpr
    ⟨1, by decide, [elemB], rfl, by decide, mkRat 5 1, rfl, by decide, by decide⟩

/-- C2. The presentation sort puts every price-present record before
every price-absent record, orders the price-present records
non-decreasingly by price, keeps the price-absent records in their
input order, and permutes the input. -/
theorem sortData_spec (l : List Record) :
    ((sortData l).Pairwise fun a b => a.price = none → b.price = none) ∧
    ((sortData l).Pairwise fun a b =>
       ∀ pa pb, a.price = some pa → b.price = some pb → pa ≤ pb) ∧
    ((sortData l).filter (fun r => r.price.isNone) = l.filter (fun r => r.price.isNone)) ∧
    List.Perm (sortData l) l := by
  have hs : (sortData l).Pairwise fun a b => keyLE a b = true :=
    List.sorted_mergeSort keyLE_trans keyLE_total l
  refine ⟨?_, ?_, ?_, List.mergeSort_perm l keyLE⟩
  · refine hs.imp ?_
    intro a b hab hpa
    have hP := of_decide_eq_true hab
    cases hb : b.price with
    | none => rfl
    | some pb =>
      exfalso
      rw [show sortKeyFst a = 1 from by simp [sortKeyFst, hpa],
        show sortKeyFst b = 0 from by simp [sortKeyFst, hb]] at hP
      rcases hP with h1 | ⟨h1, -⟩ <;> omega
  · refine hs.imp ?_
    intro a b hab pa pb hpa hpb
    have hP := of_decide_eq_true hab
    rw [show sortKeyFst a = 0 from by simp [sortKeyFst, hpa],
      show sortKeyFst b = 0 from by simp [sortKeyFst, hpb],
      show sortKeySnd a = pa from by simp [sortKeySnd, hpa],
      show sortKeySnd b = pb from by simp [sortKeySnd, hpb]] at hP
    rcases hP with h1 | ⟨-, h2⟩
    · omega
    · exact h2
  · have hall : ∀ x ∈ l.filter (fun r : Record => r.price.isNone), x.price.isNone = true :=
      fun x hx => (List.mem_filter.mp hx).2
    have hpw : (l.filter fun r : Record => r.price.isNone).Pairwise
        fun a b => keyLE a b = true := by
      apply List.pairwise_of_forall_mem_list
      intro a ha b hb
      have ha2 : a.price = none := Option.isNone_iff_eq_none.mp (hall a ha)
      have hb2 : b.price = none := Option.isNone_iff_eq_none.mp (hall b hb)
      apply decide_eq_true
      right
      exact ⟨by simp [sortKeyFst, ha2, hb2], by simp [sortKeySnd, ha2, hb2]⟩
    have hsub : List.Sublist (l.filter fun r : Record => r.price.isNone) (sortData l) :=
      List.sublist_mergeSort keyLE_trans keyLE_total hpw (List.filter_sublist l)
    have hperm := (List.mergeSort_perm l keyLE).filter (fun r : Record => r.price.isNone)
    have hsub2 : List.Sublist (l.filter fun r : Record => r.price.isNone)
        ((sortData l).filter fun r : Record => r.price.isNone) := by
      have h3 := hsub.filter (fun r : Record => r.price.isNone)
      rwa [List.filter_eq_self.mpr hall] at h3
    exact (hsub2.eq_of_length hperm.length_eq.symm).symm

/-- C2 witness: on a concrete two-record input (`recB` price-absent
before `recA` price-present), the sort keeps the price-absent sublist in
input order. -/
theorem sortData_spec_witness :
    (sortData [recB, recA]).filter (fun r => r.price.isNone) =
      [recB, recA].filter (fun r => r.price.isNone) :=
  (sortData_spec [recB, recA]).2.2.1

/-- C3 counterexample: a page-load failure on the single crawled page
makes the whole call fail — `page.goto` is not guarded, so the claim
that no page-level error is fatal is false. -/
theorem crawl_error_on_load_failure :
    crawl_naver_shopping (fun _ => Except.error ()) (mkRat 49 10) 100 1 = Except.error () ∧
    ¬ ∃ res, crawl_naver_shopping (fun _ => Except.error ()) (mkRat 49 10) 100 1 =
        Except.ok res := by
  refine ⟨rfl, ?_⟩
  rintro ⟨res, hr⟩
  exact Except.noConfusion hr

/-- C3 (amended): a page that loads but yields no items contributes zero
records and the loop continues, and no selector or per-field error is
fatal — when every page loads, the call returns the page-ordered
concatenation of per-page contributions; but a page-load failure on any
crawled page is fatal to the overall call. -/
theorem crawl_page_isolation (fetch : Nat → Except Unit (List Element)) (mr : ℚ)
    (mv n p0 : Nat) (h1 : p0 ∈ List.range' 1 n) (h2 : fetch p0 = Except.error ()) :
    (∀ res, crawl_naver_shopping fetch mr mv n ≠ Except.ok res) ∧
    (∀ docFn : Nat → List Element,
       crawl_naver_shopping (fun p => Except.ok (docFn p)) mr mv n =
         Except.ok ((List.range' 1 n).flatMap fun p => processPage mr mv (docFn p))) := by
  constructor
  · intro res hok
    obtain ⟨doc, hd⟩ := crawlPages_ok_fetch fetch mr mv (List.range' 1 n) res hok p0 h1
    rw [h2] at hd
    exact Except.noConfusion hd
  · intro docFn
    exact crawlPages_allOk docFn mr mv (List.range' 1 n)

/-- C3 witness: with both pages loading and page 2 rendering no items,
the two-page crawl succeeds with exactly page 1's record. -/
theorem crawl_page_isolation_witness :
    crawl_naver_shopping (fun p => Except.ok (if p = 1 then [elemA] else []))
        (mkRat 49 10) 100 2 =
      Except.ok [recA] := by
  have h := (crawl_page_isolation (fun _ => Except.error ()) (mkRat 49 10) 100 2 1
      (by decide) rfl).2 (fun p => if p = 1 then [elemA] else [])
  exact h.trans (congrArg Except.ok (by decide))

/-- C4 counterexample: a block whose title element exists but has
all-whitespace text is not discarded — its trimmed name is empty, yet it
still produces a record that survives the pipeline, contradicting the
claim that an empty trimmed name voids the candidate. -/
theorem empty_name_record_kept :
    pyStrip "   " = "" ∧
    extractItem elemEmptyName = some recEmptyName ∧
    recEmptyName.name = "" ∧
    processPage (mkRat 49 10) 100 [elemEmptyName] = [recEmptyName] := by
  exact ⟨by decide, by decide, rfl, by decide⟩

/-- C4 (amended): a candidate block produces no record exactly when its
title element is absent (the lookup raises); a present title element
always yields a record, even when its trimmed text is empty — the name
is then the empty string. -/
theorem extractItem_none_iff_no_title (e : Element) :
    (extractItem e = none ↔ e.nameText = none) ∧
    (∀ t, extractItem { e with nameText := some t } =
       some { name := pyStrip t, price := parsePrice e.priceText,
              rating := parseRating e.ratingText, reviews := parseReviews e.reviewText }) := by
  obtain ⟨tag, cls, nt, pt, rt, vt⟩ := e
  constructor
  · cases nt <;> simp [extractItem]
  · intro t
    rfl

/-- Closed form of the digit fold: it is the standard base-10 value of
the digit string. -/
theorem digitsVal_eq_ofDigits (l : List Char) :
    digitsVal l = Nat.ofDigits 10 ((l.map fun c => c.toNat - 48).reverse) := by
  induction l using List.reverseRecOn with
  | nil => simp [digitsVal, Nat.ofDigits]
  | append_singleton l c ih =>
    have h1 : digitsVal (l ++ [c]) = digitsVal l * 10 + (c.toNat - 48) := by
      simp [digitsVal, List.foldl_append]
    rw [h1, ih, List.map_append, List.reverse_append]
    simp [Nat.ofDigits_cons]
    ring

/-- C5. Price parsing: after removing thousands separators and the
currency suffix and trimming, a run of decimal digits parses to its
base-10 value and anything else yields an absent price; `"12,900원"`
gives `12900`, `"가격문의"` gives absent; the parse is total. -/
theorem parsePrice_spec (t : String) (n : Nat) :
    (parsePrice (some t) = some n ↔
       (pyIsDigitStr (pyStrip (pyReplace (pyReplace t "," "") "원" "")) = true ∧
        pyInt (pyStrip (pyReplace (pyReplace t "," "") "원" "")) = n)) ∧
    (∀ l : List Char,
       digitsVal l = Nat.ofDigits 10 ((l.map fun c => c.toNat - 48).reverse)) ∧
    parsePrice (some "12,900원") = some 12900 ∧
    parsePrice (some "가격문의") = none ∧
    parsePrice none = none := by
  refine ⟨?_, digitsVal_eq_ofDigits, by decide, by decide, rfl⟩
  unfold parsePrice
  by_cases h : pyIsDigitStr (pyStrip (pyReplace (pyReplace t "," "") "원" ""))
  · simp [h]
  · simp [h]

/-- C6. Review parsing: after removing the review label and thousands
separators and trimming, a run of decimal digits parses to its base-10
value and anything else defaults to `0` (the field is never absent);
`"리뷰 1,234"` gives `1234`, `"리뷰 없음"` gives `0`. -/
theorem parseReviews_spec (t : String) (n : Nat) :
    (parseReviews (some t) = n ↔
       ((pyIsDigitStr (pyStrip (pyReplace (pyReplace (pyStrip t) "리뷰" "") "," "")) = true ∧
         pyInt (pyStrip (pyReplace (pyReplace (pyStrip t) "리뷰" "") "," "")) = n) ∨
        (pyIsDigitStr (pyStrip (pyReplace (pyReplace (pyStrip t) "리뷰" "") "," "")) = false ∧
         n = 0))) ∧
    parseReviews (some "리뷰 1,234") = 1234 ∧
    parseReviews (some "리뷰 없음") = 0 ∧
    parseReviews none = 0 := by
  refine ⟨?_, by decide, by decide, rfl⟩
  unfold parseReviews
  by_cases h : pyIsDigitStr (pyStrip (pyReplace (pyReplace (pyStrip t) "리뷰" "") "," ""))
  · simp [h]
  · simp [h, eq_comm]

/-- C7. Rating parsing strips the `별점` label, trims, and parses the
remainder as a decimal number: `"별점4.95"` gives exactly `4.95`; any
parse failure leaves the rating absent (never a default), and an absent
rating always fails the filter. -/
theorem parseRating_spec (mr : ℚ) (mv : Nat) (r : Record) (t : String) :
    parseRating (some "별점4.95") = some (4.95 : ℚ) ∧
    parseRating (some "별점 없음") = none ∧
    parseRating none = none ∧
    parseRating (some t) = pyFloat (pyStrip (pyReplace (pyStrip t) "별점" "")) ∧
    passesFilter mr mv
      { name := r.name, price := r.price, rating := none, reviews := r.reviews } = false := by
  refine ⟨?_, by decide, rfl, rfl, rfl⟩
  have h : parseRating (some "별점4.95") = some (mkRat 495 100) := by decide
  rw [h]
  norm_num [Rat.mkRat_eq_divInt, Rat.divInt_eq_div]

/-- C8. The four field extractions are failure-isolated: a missing name
element voids only the candidate, the other three parsers map a fault to
their defaults (absent, absent, `0`), and each extracted field depends
only on its own source text — changing the other fields' texts (for
example to faulting lookups) never changes it. -/
theorem field_isolation (e : Element) (pt rt vt : Option String) :
    (extractItem { e with nameText := none } = none) ∧
    parsePrice none = none ∧
    parseRating none = none ∧
    parseReviews none = 0 ∧
    ((extractItem { e with priceText := pt, ratingText := rt, reviewText := vt }).map
        Record.name = (extractItem e).map Record.name) ∧
    ((extractItem { e with ratingText := rt, reviewText := vt }).map Record.price
       = (extractItem e).map Record.price) ∧
    ((extractItem { e with priceText := pt, reviewText := vt }).map Record.rating
       = (extractItem e).map Record.rating) ∧
    ((extractItem { e with priceText := pt, ratingText := rt }).map Record.reviews
       = (extractItem e).map Record.reviews) := by
  obtain ⟨tag, cls, nt, pt0, rt0, vt0⟩ := e
  cases nt <;> exact ⟨rfl, rfl, rfl, rfl, rfl, rfl, rfl, rfl⟩

/-- C9. Candidate lookup is two-tier: the primary selector set is used
when it matches, the narrower fallback is consulted only when the
primary finds nothing; a page whose lookup finds nothing contributes
zero records without error, so a two-page crawl whose second page
renders no items returns exactly the first page's records. -/
theorem selector_fallback_pipeline (mr : ℚ) (mv : Nat) :
    (∀ doc : List Element, (doc.filter matchesPrimary).isEmpty = false →
       findItems doc = doc.filter matchesPrimary) ∧
    (∀ doc : List Element, (doc.filter matchesPrimary).isEmpty = true →
       findItems doc = doc.filter matchesFallback) ∧
    (∀ doc1 doc2 : List Element, findItems doc2 = [] →
       crawl_naver_shopping (fun p => if p = 1 then Except.ok doc1 else Except.ok doc2)
           mr mv 2 =
         Except.ok (processPage mr mv doc1)) := by
  refine ⟨?_, ?_, ?_⟩
  · intro doc h
    simp [findItems, h]
  · intro doc h
    simp [findItems, h]
  · intro doc1 doc2 h
    have h2 : processPage mr mv doc2 = [] := by simp [processPage, h]
    show crawlPages _ mr mv (List.range' 1 2) = _
    have hr : List.range' 1 2 = [1, 2] := rfl
    rw [hr]
    simp [crawlPages, h2]

/-- C9 witness: page 1 renders three qualifying cards, page 2 renders
only an element neither selector matches; the crawl returns exactly the
three page-1 records and no error. -/
theorem selector_fallback_pipeline_witness :
    crawl_naver_shopping
        (fun p => if p = 1 then Except.ok [elemA, elemB, elemC] else Except.ok [elemOther])
        (mkRat 49 10) 100 2 =
      Except.ok [recA, recB, recC] := by
  have h := (selector_fallback_pipeline (mkRat 49 10) 100).2.2 [elemA, elemB, elemC]
    [elemOther] (by decide)
  exact h.trans (congrArg Except.ok (by decide))

/-- C10. The fallback selector matches a subset of the primary selector
set (the primary is a comma union containing the fallback), so the
fallback tier can never recover candidates on a document where the
primary found none, and the two-tier lookup always equals the primary
lookup. -/
theorem fallback_within_primary (e : Element) (doc : List Element) :
    (matchesFallback e = true → matchesPrimary e = true) ∧
    List.Sublist (doc.filter matchesFallback) (doc.filter matchesPrimary) ∧
    (doc.filter matchesPrimary = [] → doc.filter matchesFallback = []) ∧
    findItems doc = doc.filter matchesPrimary := by
  have himp : ∀ x : Element, matchesFallback x = true → matchesPrimary x = true := by
    intro x hx
    simp only [matchesPrimary, Bool.or_eq_true]
    exact Or.inl hx
  have hsub : List.Sublist (doc.filter matchesFallback) (doc.filter matchesPrimary) :=
    List.monotone_filter_right doc himp
  refine ⟨himp e, hsub, ?_, ?_⟩
  · intro hp
    have h2 := hsub
    rw [hp] at h2
    exact List.sublist_nil.mp h2
  · by_cases h : (doc.filter matchesPrimary).isEmpty
    · have hp : doc.filter matchesPrimary = [] := List.isEmpty_iff.mp h
      have hf : doc.filter matchesFallback = [] := by
        have h2 := hsub
        rw [hp] at h2
        exact List.sublist_nil.mp h2
      simp [findItems, h, hp, hf]
    · simp [findItems, h]

/-- C10 witness: the concrete fallback-matched card `elemA` is also
matched by the primary selector set. -/
theorem fallback_within_primary_witness : matchesPrimary elemA = true :=
  (fallback_within_primary elemA []).1 (by decide)

-- scratch tests
example : pyStrip "  ab c  " = "ab c" := by decide
example : pyReplace "12,900원" "," "" = "12900원" := by decide
example : parsePrice (some "12,900원") = some 12900 := by decide
example : parsePrice (some "가격문의") = none := by decide
example : parseReviews (some "리뷰 1,234") = 1234 := by decide
example : parseRating (some "별점4.95") = some (mkRat 495 100) := by decide
example : parseRating (some "별점4.95") = some (4.95 : ℚ) := by
  have h : parseRating (some "별점4.95") = some (mkRat 495 100) := by decide
  rw [h]; norm_num [Rat.mkRat_eq_div]
example : parseRating (some "별점 없음") = none := by decide
example : passesFilter (mkRat 49 10) 100
    { name := "", price := none, rating := some (mkRat 495 100), reviews := 1234 } = true := by
  decide
